import Mathlib

/-!
Shallow embedding of src/BiAnalitico.py: a Streamlit report that normalizes a
table of complaint records and produces period-over-period comparisons.
Pure functions of the source become Lean functions; pandas DataFrames become
lists of records (or, before normalization, a header plus rows of optional
string cells); Python floats become rationals; pandas NaN cells become none.
-/

namespace BiAnalitico

/-- Canonical ordered month names, source lines 21-24 (ORDEM_MESES). -/
def ORDEM_MESES : List String :=
  ["janeiro", "fevereiro", "março", "abril", "maio", "junho",
   "julho", "agosto", "setembro", "outubro", "novembro", "dezembro"]

/-- Abbreviation-to-full-name month map, source lines 40-44 (meses_map). -/
def MESES_ABREV : List (String × String) :=
  [("jan", "janeiro"), ("fev", "fevereiro"), ("mar", "março"), ("abr", "abril"),
   ("mai", "maio"), ("jun", "junho"), ("jul", "julho"), ("ago", "agosto"),
   ("set", "setembro"), ("out", "outubro"), ("nov", "novembro"), ("dez", "dezembro")]

/-- Lowercasing of one character as Python str.lower does on the characters
that occur in the tables this report reads: the ASCII uppercase letters plus
the cedilla of março. -/
def charLowerPt (c : Char) : Char :=
  if c = 'A' then 'a' else if c = 'B' then 'b' else if c = 'C' then 'c'
  else if c = 'D' then 'd' else if c = 'E' then 'e' else if c = 'F' then 'f'
  else if c = 'G' then 'g' else if c = 'H' then 'h' else if c = 'I' then 'i'
  else if c = 'J' then 'j' else if c = 'K' then 'k' else if c = 'L' then 'l'
  else if c = 'M' then 'm' else if c = 'N' then 'n' else if c = 'O' then 'o'
  else if c = 'P' then 'p' else if c = 'Q' then 'q' else if c = 'R' then 'r'
  else if c = 'S' then 's' else if c = 'T' then 't' else if c = 'U' then 'u'
  else if c = 'V' then 'v' else if c = 'W' then 'w' else if c = 'X' then 'x'
  else if c = 'Y' then 'y' else if c = 'Z' then 'z' else if c = 'Ç' then 'ç'
  else c

/-- Whitespace characters Python str.strip removes (the common ones). -/
def isEspaco (c : Char) : Bool :=
  c = ' ' ∨ c = '\t' ∨ c = '\n' ∨ c = '\r'

/-- Removes surrounding whitespace of a character list. -/
def stripChars (l : List Char) : List Char :=
  ((l.dropWhile isEspaco).reverse.dropWhile isEspaco).reverse

/-- Models the pandas chain .str.lower().str.strip() applied to a cell,
source lines 30 and 37. -/
def lowerStrip (s : String) : String :=
  ⟨stripChars (s.data.map charLowerPt)⟩

/-- Month canonicalization pipeline of source lines 37-46: lowercase and
strip, replace a whole-cell abbreviation by the full name (Series.replace
with a dict matches entire cells), then the Categorical cast with
categories ORDEM_MESES turns any non-canonical value into NaN (none). -/
def normMes (s : String) : Option String :=
  let t := lowerStrip s
  let u := (MESES_ABREV.lookup t).getD t
  if u ∈ ORDEM_MESES then some u else none

/-- One normalized complaint record (a retained row after processar_dados).
The fato_gerador field stays optional because the source fills the four
categorical columns at lines 52-56 but never fills missing cells of an
existing fato_gerador_fato_gerador column (lines 58-60 only create it when
absent). -/
structure Rec where
  ano : Int
  mes : String
  segmento : String
  ds_canal : String
  natureza : String
  motivo : String
  fato_gerador : Option String
deriving Repr, DecidableEq

/-- A raw input table: a header row and rows of optional string cells
(none models a missing or NaN cell). Rows are indexed positionally; column
names resolve to positions through the header. -/
structure Table where
  header : List String
  rows : List (List (Option String))

/-- Cell of a row at a column position; an out-of-range index or a NaN cell
both give none. -/
def getCell (row : List (Option String)) (i : Nat) : Option String :=
  (row[i]?).join

/-- Decimal digit value of a character. -/
def digitVal (c : Char) : Option Nat :=
  if c = '0' then some 0 else if c = '1' then some 1 else if c = '2' then some 2
  else if c = '3' then some 3 else if c = '4' then some 4 else if c = '5' then some 5
  else if c = '6' then some 6 else if c = '7' then some 7 else if c = '8' then some 8
  else if c = '9' then some 9 else none

/-- Parses a nonempty list of decimal digits. -/
def parseNatDigits (l : List Char) : Option Nat :=
  l.foldl (fun acc c => acc.bind (fun n => (digitVal c).map (fun d => n * 10 + d))) (some 0)

/-- Parses an optionally negated decimal integer; anything else is none. -/
def parseIntChars (l : List Char) : Option Int :=
  match l with
  | [] => none
  | '-' :: rest =>
      if rest = [] then none else (parseNatDigits rest).map (fun n => -(n : Int))
  | _ => (parseNatDigits l).map (fun n => (n : Int))

/-- Models pd.to_numeric(..., errors=..coerce..) followed by the Int64 cast
at source line 36: a missing cell or a non-numeric string becomes none
(NaN), so the row is dropped at line 49. -/
def parseAno (c : Option String) : Option Int :=
  c.bind (fun s => parseIntChars (stripChars s.data))

/-- Column headers after source lines 30-33: lowercase and strip every name,
then rename a column mês to mes. -/
def normHeader (t : Table) : List String :=
  (t.header.map lowerStrip).map (fun c => if c = "mês" then "mes" else c)

/-- Value of a categorical column for one row, source lines 52-56: if the
column is absent the whole column is the constant desconhecido, and if the
cell is missing it is filled with desconhecido. -/
def catField (row : List (Option String)) (i : Option Nat) : String :=
  match i with
  | none => "desconhecido"
  | some j => (getCell row j).getD "desconhecido"

/-- Value of the fato_gerador_fato_gerador column for one row, source lines
58-60: the column is synthesized as desconhecido only when absent; when the
column is present a missing cell is NOT filled and stays none. -/
def fatoField (row : List (Option String)) (i : Option Nat) : Option String :=
  match i with
  | none => some "desconhecido"
  | some j => getCell row j

/-- Normalization of one row given the positions of the mandatory columns:
the row is kept only when both the year parses and the month canonicalizes
(the dropna of source line 49); the remaining fields are filled per
catField and fatoField. -/
def linhaRec (hdr : List String) (row : List (Option String)) (iAno iMes : Nat) :
    Option Rec :=
  match parseAno (getCell row iAno), (getCell row iMes).bind normMes with
  | some ano, some mes =>
      some { ano := ano, mes := mes
           , segmento := catField row (hdr.findIdx? (fun c => c = "segmento"))
           , ds_canal := catField row (hdr.findIdx? (fun c => c = "ds_canal"))
           , natureza := catField row (hdr.findIdx? (fun c => c = "natureza"))
           , motivo := catField row (hdr.findIdx? (fun c => c = "motivo"))
           , fato_gerador :=
               fatoField row (hdr.findIdx? (fun c => c = "fato_gerador_fato_gerador")) }
  | _, _ => none

/-- Body of processar_dados (source lines 27-62): resolves the mandatory ano
and mes columns and normalizes every row; none models the KeyError raised by
df[..ano..] or df[..mes..] when the column is missing, which the except arm
of the source turns into an empty DataFrame. -/
def processarCore (t : Table) : Option (List Rec) :=
  let hdr := normHeader t
  match hdr.findIdx? (fun c => c = "ano"), hdr.findIdx? (fun c => c = "mes") with
  | some iAno, some iMes => some (t.rows.filterMap (fun row => linhaRec hdr row iAno iMes))
  | _, _ => none

/-- processar_dados, source lines 27-65: on any failure the except arm
reports an error and returns an empty DataFrame (here the empty list). -/
def processar_dados (t : Table) : List Rec :=
  (processarCore t).getD []

/-- analisar_variacao, source lines 7-14. Counts are naturals, the percent
is a rational (the float of the source), the second component is the sign
flag the source computes as 1 if var greater than 0 else -1. -/
def analisar_variacao (count_atual count_anterior : Nat) : ℚ × Int :=
  if count_anterior = 0 then
    if count_atual = 0 then (0, 0) else (100, 1)
  else
    let var : ℚ := (((count_atual : ℚ) - (count_anterior : ℚ)) / (count_anterior : ℚ)) * 100
    (var, if var > 0 then 1 else -1)

/-- Period filter of source lines 89-93: the rows whose mes and ano equal
the selected pair. -/
def filtroPeriodo (df : List Rec) (ano : Int) (mes : String) : List Rec :=
  df.filter (fun r => r.mes = mes ∧ r.ano = ano)

/-- Displayed overall variation of source line 98: a plain conditional that
yields 0 whenever the reference total is zero, written inline and NOT using
analisar_variacao. -/
def variacao (total_atual total_anterior : Nat) : ℚ :=
  if total_anterior ≠ 0 then (((total_atual : ℚ) - (total_anterior : ℚ)) / (total_anterior : ℚ)) * 100
  else 0

/-- Channel restriction of source lines 147-148: the Geral channel keeps the
whole frame, any other channel filters on ds_canal. -/
def canalSubset (df : List Rec) (canal : String) : List Rec :=
  if canal = "Geral" then df else df.filter (fun r => r.ds_canal = canal)

/-- Number of rows of a subset whose projected category equals k: the count
value_counts reports for key k, and 0 when k is absent (the fillna(0) and
the .get(motivo, 0) of the source). -/
def cntBy (rows : List Rec) (f : Rec → String) (k : String) : Nat :=
  (rows.filter (fun r => f r = k)).length

/-- Comparison table of source lines 153-156 and 159-162: concat of the two
value_counts series along axis 1 makes the key set the union of the keys of
either side, fillna(0) gives an absent side count 0, and the last column is
the signed difference. The count-descending index order of value_counts is
not modelled; the key set and the counts per key are what the development
reasons about. -/
def comparacao (atual anterior : List Rec) (f : Rec → String) :
    List (String × Nat × Nat × Int) :=
  ((atual.map f ++ anterior.map f).dedup).map
    (fun k => (k, cntBy atual f k, cntBy anterior f k,
               (cntBy atual f k : Int) - (cntBy anterior f k : Int)))

/-- Nature comparison table the source displays inside the segment loop at
lines 144-163. The source computes df_atual_canal from df_atual and the
channel ONLY: the segmento loop variable is never used to filter, so the
table is the same under every segment heading; the unused first string
argument records that fact. -/
def comparacao_natureza (df_atual df_anterior : List Rec) (_segmento canal : String) :
    List (String × Nat × Nat × Int) :=
  comparacao (canalSubset df_atual canal) (canalSubset df_anterior canal) Rec.natureza

/-- Segment restriction of source lines 198-199. -/
def segmentoSubset (df : List Rec) (seg : String) : List Rec :=
  df.filter (fun r => r.segmento = seg)

/-- naturezas_positivas of source lines 204-206: value_counts of the current
side minus value_counts of the reference side with fill_value 0, so the key
set is the union of natures of either side and the value is the signed
count difference. -/
def naturezas_positivas (atual anterior : List Rec) : List (String × Int) :=
  ((atual.map Rec.natureza ++ anterior.map Rec.natureza).dedup).map
    (fun k => (k, (cntBy atual Rec.natureza k : Int) - (cntBy anterior Rec.natureza k : Int)))

/-- Comparison on the delta component, ascending: the order Series.nsmallest
sorts by. -/
def deltaLE (a b : String × Int) : Prop := a.2 ≤ b.2

/-- Comparison on the delta component, descending: the order Series.nlargest
sorts by. -/
def deltaGE (a b : String × Int) : Prop := b.2 ≤ a.2

instance : DecidableRel deltaLE := fun a b => Int.decLe a.2 b.2

instance : DecidableRel deltaGE := fun a b => Int.decLe b.2 a.2

instance : IsTotal (String × Int) deltaLE := ⟨fun a b => Int.le_total a.2 b.2⟩

instance : IsTrans (String × Int) deltaLE := ⟨fun _ _ _ h1 h2 => Int.le_trans h1 h2⟩

instance : IsTotal (String × Int) deltaGE := ⟨fun a b => Int.le_total b.2 a.2⟩

instance : IsTrans (String × Int) deltaGE := ⟨fun _ _ _ h1 h2 => Int.le_trans h2 h1⟩

/-- Series.nsmallest(5): stable ascending sort by value, first five entries
(pandas keeps first occurrences on ties; insertionSort is stable). -/
def nsmallest5 (l : List (String × Int)) : List (String × Int) :=
  (List.insertionSort deltaLE l).take 5

/-- Series.nlargest(5): stable descending sort by value, first five entries. -/
def nlargest5 (l : List (String × Int)) : List (String × Int) :=
  (List.insertionSort deltaGE l).take 5

/-- Naturezas com Reducao list the source displays at lines 210-212: it
iterates nsmallest(5) and shows an entry only when its variation is
strictly negative. -/
def naturezasReducao (atual anterior : List Rec) : List (String × Int) :=
  (nsmallest5 (naturezas_positivas atual anterior)).filter (fun p => p.2 < 0)

/-- Naturezas com Aumento list the source displays at lines 234-236: it
iterates nlargest(5) and shows an entry only when its variation is
strictly positive. -/
def naturezasAumento (atual anterior : List Rec) : List (String × Int) :=
  (nlargest5 (naturezas_positivas atual anterior)).filter (fun p => p.2 > 0)

/-- Reason breakdown of source lines 214-218 (and identically 238-242) for
one ranked nature: the loop runs over the keys of motivos_atual, the
value_counts of the CURRENT records of that nature, and reads the reference
count with .get(motivo, 0); a reason present only on the reference side is
therefore never enumerated. -/
def motivos_relacionados (dfSegAtual dfSegAnterior : List Rec) (natureza : String) :
    List (String × Nat × Nat) :=
  let atualNat := dfSegAtual.filter (fun r => r.natureza = natureza)
  let anteriorNat := dfSegAnterior.filter (fun r => r.natureza = natureza)
  ((atualNat.map Rec.motivo).dedup).map
    (fun m => (m, cntBy atualNat Rec.motivo m, cntBy anteriorNat Rec.motivo m))

/-! Helper lemmas shared by the claim theorems. -/

/-- Inverting a successful row normalization: every field of the produced
record is determined as linhaRec computes it. -/
theorem linhaRec_inv {hdr : List String} {row : List (Option String)}
    {iAno iMes : Nat} {r : Rec} (h : linhaRec hdr row iAno iMes = some r) :
    parseAno (getCell row iAno) = some r.ano ∧
    (getCell row iMes).bind normMes = some r.mes ∧
    r.segmento = catField row (hdr.findIdx? (fun c => c = "segmento")) ∧
    r.ds_canal = catField row (hdr.findIdx? (fun c => c = "ds_canal")) ∧
    r.natureza = catField row (hdr.findIdx? (fun c => c = "natureza")) ∧
    r.motivo = catField row (hdr.findIdx? (fun c => c = "motivo")) ∧
    r.fato_gerador = fatoField row (hdr.findIdx? (fun c => c = "fato_gerador_fato_gerador")) := by
  unfold linhaRec at h
  rcases hPA : parseAno (getCell row iAno) with _ | ano <;> rw [hPA] at h
  · exact Option.noConfusion h
  · rcases hPM : (getCell row iMes).bind normMes with _ | mes <;> rw [hPM] at h
    · exact Option.noConfusion h
    · injection h with h
      subst h
      exact ⟨rfl, rfl, rfl, rfl, rfl, rfl, rfl⟩

/-- When both mandatory columns resolve, processar_dados is the filterMap of
linhaRec over the raw rows. -/
theorem processar_dados_eq_filterMap {t : Table} {iAno iMes : Nat}
    (hA : (normHeader t).findIdx? (fun c => c = "ano") = some iAno)
    (hM : (normHeader t).findIdx? (fun c => c = "mes") = some iMes) :
    processar_dados t = t.rows.filterMap (fun row => linhaRec (normHeader t) row iAno iMes) := by
  simp only [processar_dados, processarCore]
  rw [hA, hM]
  rfl

/-- Missing ano column: the pipeline yields the empty record set. -/
theorem processar_dados_eq_nil_left {t : Table}
    (hA : (normHeader t).findIdx? (fun c => c = "ano") = none) :
    processar_dados t = [] := by
  simp only [processar_dados, processarCore]
  rw [hA]
  rfl

/-- Missing mes column: the pipeline yields the empty record set. -/
theorem processar_dados_eq_nil_right {t : Table}
    (hM : (normHeader t).findIdx? (fun c => c = "mes") = none) :
    processar_dados t = [] := by
  simp only [processar_dados, processarCore]
  rcases hA : (normHeader t).findIdx? (fun c => c = "ano") with _ | iAno <;> rw [hM] <;> rfl

/-- Inverting membership in the normalized record set. -/
theorem processar_dados_mem {t : Table} {r : Rec} (h : r ∈ processar_dados t) :
    ∃ iAno iMes row, (normHeader t).findIdx? (fun c => c = "ano") = some iAno ∧
      (normHeader t).findIdx? (fun c => c = "mes") = some iMes ∧
      row ∈ t.rows ∧ linhaRec (normHeader t) row iAno iMes = some r := by
  rcases hA : (normHeader t).findIdx? (fun c => c = "ano") with _ | iAno
  · rw [processar_dados_eq_nil_left hA] at h
    exact absurd h (List.not_mem_nil r)
  rcases hM : (normHeader t).findIdx? (fun c => c = "mes") with _ | iMes
  · rw [processar_dados_eq_nil_right hM] at h
    exact absurd h (List.not_mem_nil r)
  rw [processar_dados_eq_filterMap hA hM, List.mem_filterMap] at h
  obtain ⟨row, hrow, hlin⟩ := h
  exact ⟨iAno, iMes, row, rfl, rfl, hrow, hlin⟩

/-- List.lookup misses every key that is not a key of the association list. -/
theorem lookup_eq_none_of_not_mem_keys :
    ∀ {l : List (String × String)} {k : String},
      k ∉ l.map Prod.fst → List.lookup k l = none := by
  intro l
  induction l with
  | nil => intro k _; rfl
  | cons p tl ih =>
    intro k h
    obtain ⟨k1, v⟩ := p
    simp only [List.map_cons, List.mem_cons, not_or] at h
    have hbeq : (k == k1) = false := beq_eq_false_iff_ne.mpr h.1
    simpa [List.lookup, hbeq] using ih h.2

/-- Any month normMes accepts is canonical. -/
theorem normMes_mem {s m : String} (h : normMes s = some m) : m ∈ ORDEM_MESES := by
  simp only [normMes] at h
  split at h
  · rename_i hmem
    injection h with h
    exact h ▸ hmem
  · exact Option.noConfusion h

/-- A column name absent from the header is found at no index. -/
theorem findIdx_eq_none_of_not_mem {hdr : List String} {c : String}
    (h : c ∉ hdr) : hdr.findIdx? (fun x => x = c) = none := by
  rw [List.findIdx?_eq_none_iff]
  intro x hx
  simp only [decide_eq_false_iff_not]
  rintro rfl
  exact h hx

/-! Claim theorems. -/

/-- C2: the variation calculator is total (its Lean type is Nat to Nat to a
rational paired with a sign) and on a zero reference count it returns the
fixed pair (0, 0) when the current count is 0 and the sentinel (100, +1)
for every positive current count, independent of its magnitude. -/
theorem c2_variacao_sentinela :
    analisar_variacao 0 0 = (0, 0) ∧
    ∀ c : Nat, 0 < c → analisar_variacao c 0 = (100, 1) := by
  constructor
  · rfl
  · intro c hc
    simp [analisar_variacao, hc.ne']

theorem c2_variacao_sentinela_witness : analisar_variacao 3 0 = (100, 1) :=
  c2_variacao_sentinela.2 3 (by decide)

/-- C3 counterexample: at equal nonzero counts the source returns the sign
flag -1, not the 0 the claim states (line 14 is 1 if var greater than 0
else -1, so a zero variation falls into the else arm). -/
theorem c3_direcao_zero_contraexemplo :
    analisar_variacao 5 5 = (0, -1) ∧ (analisar_variacao 5 5).2 ≠ 0 := by
  constructor <;> norm_num [analisar_variacao]

/-- C3 amended: for a positive reference count the percent is the exact
formula and the second component is +1 when the current count exceeds the
reference and -1 otherwise, including the equal-counts case. -/
theorem c3_direcao_emendada (a b : Nat) (hb : 0 < b) :
    (analisar_variacao a b).1 = (((a : ℚ) - (b : ℚ)) / (b : ℚ)) * 100 ∧
    (analisar_variacao a b).2 = if b < a then 1 else -1 := by
  have hbQ : (0 : ℚ) < (b : ℚ) := by exact_mod_cast hb
  have hb0 : b ≠ 0 := hb.ne'
  have hiff : ((0 : ℚ) < (((a : ℚ) - (b : ℚ)) / (b : ℚ)) * 100) ↔ b < a := by
    rw [mul_pos_iff_of_pos_right (show (0 : ℚ) < 100 by norm_num), div_pos_iff]
    simp only [hbQ, and_true, hbQ.not_lt, and_false, or_false, sub_pos]
    exact Nat.cast_lt
  constructor
  · simp [analisar_variacao, hb0]
  · simp only [analisar_variacao, hb0, if_false, if_neg hb0, gt_iff_lt]
    rw [if_congr hiff rfl rfl]

theorem c3_direcao_emendada_witness :
    (analisar_variacao 3 2).1 = (((3 : ℚ) - (2 : ℚ)) / (2 : ℚ)) * 100 ∧
    (analisar_variacao 3 2).2 = if 2 < 3 then 1 else -1 :=
  c3_direcao_emendada 3 2 (by decide)

/-- C4 counterexample: with one current record and an empty reference subset
the displayed overall percentage of source line 98 is 0, not the 100.0
sentinel the claim (via the rule of analisar_variacao) states. -/
theorem c4_resumo_vazio_contraexemplo :
    (filtroPeriodo [(⟨2025, "janeiro", "A", "Procon", "N", "m", none⟩ : Rec)] 2025 "janeiro").length = 1 ∧
    (filtroPeriodo [(⟨2025, "janeiro", "A", "Procon", "N", "m", none⟩ : Rec)] 2024 "janeiro").length = 0 ∧
    variacao 1 0 = 0 ∧ variacao 1 0 ≠ 100 := by
  refine ⟨by decide, by decide, by norm_num [variacao], by norm_num [variacao]⟩

/-- C4 amended: whenever the reference-period subset is empty the overall
summary displays exactly 0 (the inline conditional of source line 98 never
consults analisar_variacao), and the computation is total, so nothing is
raised. -/
theorem c4_resumo_vazio_emendada (df : List Rec) (anoA anoR : Int) (mesA mesR : String)
    (h : filtroPeriodo df anoR mesR = []) :
    variacao (filtroPeriodo df anoA mesA).length (filtroPeriodo df anoR mesR).length = 0 := by
  rw [h]
  simp [variacao]

theorem c4_resumo_vazio_emendada_witness :
    variacao (filtroPeriodo [(⟨2025, "janeiro", "A", "Procon", "N", "m", none⟩ : Rec)] 2025 "janeiro").length
      (filtroPeriodo [(⟨2025, "janeiro", "A", "Procon", "N", "m", none⟩ : Rec)] 2024 "janeiro").length = 0 :=
  c4_resumo_vazio_emendada _ 2025 2024 "janeiro" "janeiro" (by decide)

/-- C1, evaluation at the failing input: two current records of natureza
Cobranca in channel Procon, one in segment A and one in segment B, an empty
reference side. The table the source displays under the heading of segment
A reports the count 2 for Cobranca, although only one record of segment A
exists: the loop of source lines 144-163 never filters df_atual by the
segmento loop variable. -/
theorem c1_segmento_nao_filtrado :
    comparacao_natureza
      [⟨2025, "janeiro", "A", "Procon", "Cobranca", "m1", some "f"⟩,
       ⟨2025, "janeiro", "B", "Procon", "Cobranca", "m1", some "f"⟩] [] "A" "Procon"
      = [("Cobranca", 2, 0, 2)] ∧
    (([⟨2025, "janeiro", "A", "Procon", "Cobranca", "m1", some "f"⟩,
       ⟨2025, "janeiro", "B", "Procon", "Cobranca", "m1", some "f"⟩] : List Rec).filter
       (fun r => r.segmento = "A")).length = 1 := by
  constructor <;> decide

/-- C8 counterexample: an input table whose fato_gerador_fato_gerador column
is present but has a missing cell produces a retained record whose causal
factor is still null; the fill loop of source lines 52-56 does not include
that column and lines 58-60 only synthesize it when absent. -/
theorem c8_fato_nulo_contraexemplo :
    (processar_dados ⟨["ano", "mes", "fato_gerador_fato_gerador"],
        [[some "2025", some "janeiro", none]]⟩).map Rec.fato_gerador = [none] := by
  decide

/-- C8 amended: when the causal-factor column is absent from the (normalized)
header, every retained record carries the sentinel desconhecido; when the
column is present, missing cells are left null rather than replaced. -/
theorem c8_fato_ausente_emendada (t : Table)
    (h : "fato_gerador_fato_gerador" ∉ normHeader t) :
    ∀ r ∈ processar_dados t, r.fato_gerador = some "desconhecido" := by
  intro r hr
  obtain ⟨iAno, iMes, row, _, _, _, hlin⟩ := processar_dados_mem hr
  have hfg := (linhaRec_inv hlin).2.2.2.2.2.2
  rw [hfg, findIdx_eq_none_of_not_mem h]
  rfl

theorem c8_fato_ausente_emendada_witness :
    (⟨2025, "janeiro", "desconhecido", "desconhecido", "desconhecido", "desconhecido",
      some "desconhecido"⟩ : Rec).fato_gerador = some "desconhecido" :=
  c8_fato_ausente_emendada ⟨["ano", "mes"], [[some "2025", some "jan"]]⟩ (by decide) _ (by decide)

/-- Length bound for the displayed reduction list: filtering the first five
entries of the sorted series keeps at most five. -/
theorem reducao_length_le (atual anterior : List Rec) :
    (naturezasReducao atual anterior).length ≤ 5 := by
  unfold naturezasReducao nsmallest5
  exact le_trans (List.length_filter_le _ _)
    (by rw [List.length_take]; exact min_le_left _ _)

/-- Length bound for the displayed increase list. -/
theorem aumento_length_le (atual anterior : List Rec) :
    (naturezasAumento atual anterior).length ≤ 5 := by
  unfold naturezasAumento nlargest5
  exact le_trans (List.length_filter_le _ _)
    (by rw [List.length_take]; exact min_le_left _ _)

/-- Every displayed reduction entry has strictly negative delta. -/
theorem reducao_neg (atual anterior : List Rec) :
    ∀ p ∈ naturezasReducao atual anterior, p.2 < 0 := by
  intro p hp
  simpa using (List.mem_filter.mp hp).2

/-- Every displayed increase entry has strictly positive delta. -/
theorem aumento_pos (atual anterior : List Rec) :
    ∀ p ∈ naturezasAumento atual anterior, 0 < p.2 := by
  intro p hp
  simpa using (List.mem_filter.mp hp).2

/-- The displayed reduction list is ascending in delta. -/
theorem reducao_sorted (atual anterior : List Rec) :
    List.Sorted deltaLE (naturezasReducao atual anterior) :=
  List.Pairwise.filter _
    (List.Pairwise.sublist (List.take_sublist _ _)
      (List.sorted_insertionSort (r := deltaLE) _))

/-- The displayed increase list is descending in delta. -/
theorem aumento_sorted (atual anterior : List Rec) :
    List.Sorted deltaGE (naturezasAumento atual anterior) :=
  List.Pairwise.filter _
    (List.Pairwise.sublist (List.take_sublist _ _)
      (List.sorted_insertionSort (r := deltaGE) _))

/-- C5: for either grain projection, the key set of the comparison mapping
is exactly the union of the category values of the two subsets, and a key
missing from one subset carries the count 0 on that side. -/
theorem c5_uniao_chaves (atual anterior : List Rec) (f : Rec → String) :
    (∀ k : String, k ∈ (comparacao atual anterior f).map Prod.fst ↔
        (∃ r ∈ atual, f r = k) ∨ (∃ r ∈ anterior, f r = k)) ∧
    (∀ p ∈ comparacao atual anterior f,
        ((∀ r ∈ atual, f r ≠ p.1) → p.2.1 = 0) ∧
        ((∀ r ∈ anterior, f r ≠ p.1) → p.2.2.1 = 0)) := by
  constructor
  · intro k
    simp only [comparacao, List.map_map, List.mem_map, Function.comp, List.mem_dedup,
      List.mem_append]
    constructor
    · rintro ⟨x, hx, rfl⟩
      exact hx
    · intro hx
      exact ⟨k, hx, rfl⟩
  · intro p hp
    simp only [comparacao, List.mem_map] at hp
    obtain ⟨k, hk, rfl⟩ := hp
    constructor
    · intro hnone
      simp only [cntBy, List.length_eq_zero, List.filter_eq_nil_iff, decide_eq_true_eq]
      exact hnone
    · intro hnone
      simp only [cntBy, List.length_eq_zero, List.filter_eq_nil_iff, decide_eq_true_eq]
      exact hnone

theorem c5_uniao_chaves_witness :
    ("N2" ∈ (comparacao [(⟨2025, "janeiro", "A", "Procon", "N1", "m", none⟩ : Rec)]
        [(⟨2024, "janeiro", "A", "Procon", "N2", "m", none⟩ : Rec)] Rec.natureza).map Prod.fst) ∧
    (("N2", 0, 1, (-1 : Int)) : String × Nat × Nat × Int).2.1 = 0 :=
  ⟨((c5_uniao_chaves _ _ _).1 "N2").mpr
      (Or.inr ⟨⟨2024, "janeiro", "A", "Procon", "N2", "m", none⟩, by decide, rfl⟩),
   ((c5_uniao_chaves [(⟨2025, "janeiro", "A", "Procon", "N1", "m", none⟩ : Rec)]
        [(⟨2024, "janeiro", "A", "Procon", "N2", "m", none⟩ : Rec)] Rec.natureza).2
      ("N2", 0, 1, (-1 : Int)) (by decide)).1 (by decide)⟩

/-- C6: for every segment, the displayed reduction list has at most five
entries, all with strictly negative delta, ascending; the displayed
increase list has at most five entries, all with strictly positive delta,
descending; no zero-delta entry can appear in either. -/
theorem c6_ranking (df_atual df_anterior : List Rec) (seg : String) :
    (naturezasReducao (segmentoSubset df_atual seg) (segmentoSubset df_anterior seg)).length ≤ 5 ∧
    (∀ p ∈ naturezasReducao (segmentoSubset df_atual seg) (segmentoSubset df_anterior seg),
      p.2 < 0) ∧
    List.Sorted deltaLE (naturezasReducao (segmentoSubset df_atual seg) (segmentoSubset df_anterior seg)) ∧
    (naturezasAumento (segmentoSubset df_atual seg) (segmentoSubset df_anterior seg)).length ≤ 5 ∧
    (∀ p ∈ naturezasAumento (segmentoSubset df_atual seg) (segmentoSubset df_anterior seg),
      0 < p.2) ∧
    List.Sorted deltaGE (naturezasAumento (segmentoSubset df_atual seg) (segmentoSubset df_anterior seg)) :=
  ⟨reducao_length_le _ _, reducao_neg _ _, reducao_sorted _ _,
   aumento_length_le _ _, aumento_pos _ _, aumento_sorted _ _⟩

theorem c6_ranking_witness :
    (naturezasReducao
      (segmentoSubset [(⟨2025, "janeiro", "A", "Procon", "N1", "m", none⟩ : Rec)] "A")
      (segmentoSubset [(⟨2024, "janeiro", "A", "Procon", "N1", "m", none⟩ : Rec),
        (⟨2024, "janeiro", "A", "Procon", "N1", "m", none⟩ : Rec),
        (⟨2024, "janeiro", "A", "Procon", "N2", "m", none⟩ : Rec)] "A")).length ≤ 5 ∧
    (("N1", (-1 : Int)) : String × Int).2 < 0 :=
  ⟨(c6_ranking _ _ "A").1,
   (c6_ranking [(⟨2025, "janeiro", "A", "Procon", "N1", "m", none⟩ : Rec)]
      [(⟨2024, "janeiro", "A", "Procon", "N1", "m", none⟩ : Rec),
       (⟨2024, "janeiro", "A", "Procon", "N1", "m", none⟩ : Rec),
       (⟨2024, "janeiro", "A", "Procon", "N2", "m", none⟩ : Rec)] "A").2.1
     ("N1", (-1 : Int)) (by decide)⟩

/-- C7 counterexample at a RANKED nature: with two current records of
natureza N (both motivo X) and one reference record of natureza N with
motivo Y, all in segment A, natureza N has delta +1 and is displayed in the
top-5 worsened list (Naturezas com Aumento); its breakdown lists only X,
and motivo Y, present among the reference-period records of natureza N, is
omitted instead of appearing with a zero current count, because the loop of
source lines 238-242 runs over the keys of motivos_atual only. -/
theorem c7_motivo_omitido_contraexemplo :
    naturezasAumento
      (segmentoSubset [(⟨2025, "janeiro", "A", "Procon", "N", "X", none⟩ : Rec),
        (⟨2025, "janeiro", "A", "Procon", "N", "X", none⟩ : Rec)] "A")
      (segmentoSubset [(⟨2024, "janeiro", "A", "Procon", "N", "Y", none⟩ : Rec)] "A")
      = [("N", 1)] ∧
    ("Y" ∉ (motivos_relacionados
        (segmentoSubset [(⟨2025, "janeiro", "A", "Procon", "N", "X", none⟩ : Rec),
          (⟨2025, "janeiro", "A", "Procon", "N", "X", none⟩ : Rec)] "A")
        (segmentoSubset [(⟨2024, "janeiro", "A", "Procon", "N", "Y", none⟩ : Rec)] "A")
        "N").map Prod.fst) ∧
    (⟨2024, "janeiro", "A", "Procon", "N", "Y", none⟩ : Rec).natureza = "N" ∧
    (⟨2024, "janeiro", "A", "Procon", "N", "Y", none⟩ : Rec).motivo = "Y" := by
  refine ⟨by decide, by decide, rfl, rfl⟩

/-- C7 amended: the breakdown for a ranked nature lists exactly the reasons
present among CURRENT-period records of that nature; a reason present only
in the reference period is omitted, and a listed reason that is absent from
the reference period shows the reference count 0 (the .get(motivo, 0)
fallback). -/
theorem c7_motivos_emendada (dfSegAtual dfSegAnterior : List Rec) (natz m : String) :
    (m ∈ (motivos_relacionados dfSegAtual dfSegAnterior natz).map Prod.fst ↔
      ∃ r ∈ dfSegAtual, r.natureza = natz ∧ r.motivo = m) ∧
    (∀ p ∈ motivos_relacionados dfSegAtual dfSegAnterior natz,
      (∀ r ∈ dfSegAnterior, r.natureza = natz → r.motivo ≠ p.1) → p.2.2 = 0) := by
  constructor
  · simp only [motivos_relacionados, List.map_map, List.mem_map, Function.comp,
      List.mem_dedup, List.mem_filter, decide_eq_true_eq]
    constructor
    · rintro ⟨x, hx, rfl⟩
      obtain ⟨r, ⟨hr, hnat⟩, rfl⟩ := hx
      exact ⟨r, hr, hnat, rfl⟩
    · rintro ⟨r, hr, hnat, rfl⟩
      exact ⟨r.motivo, ⟨r, ⟨hr, hnat⟩, rfl⟩, rfl⟩
  · intro p hp
    simp only [motivos_relacionados, List.mem_map] at hp
    obtain ⟨k, hk, rfl⟩ := hp
    intro hnone
    simp only [cntBy, List.length_eq_zero, List.filter_eq_nil_iff, decide_eq_true_eq]
    intro r hr
    have hr2 := List.mem_filter.mp hr
    exact hnone r hr2.1 (by simpa using hr2.2)

theorem c7_motivos_emendada_witness :
    ("X" ∈ (motivos_relacionados
        [(⟨2025, "janeiro", "A", "Procon", "N", "X", none⟩ : Rec)]
        [(⟨2024, "janeiro", "A", "Procon", "N", "Y", none⟩ : Rec)] "N").map Prod.fst) ∧
    (("X", 1, 0) : String × Nat × Nat).2.2 = 0 :=
  ⟨((c7_motivos_emendada _ _ "N" "X").1).mpr
      ⟨⟨2025, "janeiro", "A", "Procon", "N", "X", none⟩, by decide, rfl, rfl⟩,
   ((c7_motivos_emendada [(⟨2025, "janeiro", "A", "Procon", "N", "X", none⟩ : Rec)]
        [(⟨2024, "janeiro", "A", "Procon", "N", "Y", none⟩ : Rec)] "N" "X").2
      ("X", 1, 0) (by decide)) (by decide)⟩

/-- C9: month canonicalization sends every value whose lowercased, stripped
form is a canonical name to that name, every value whose lowercased,
stripped form is a standard abbreviation to the expanded name, and every
other value to none; and every record retained by processar_dados carries a
canonical month, so a row with an unresolvable month is dropped from the
normalized set (hence from everything computed from it). -/
theorem c9_mes_canonico :
    (∀ m ∈ ORDEM_MESES, ∀ s : String, lowerStrip s = m → normMes s = some m) ∧
    (∀ p ∈ MESES_ABREV, ∀ s : String, lowerStrip s = p.1 → normMes s = some p.2) ∧
    (∀ s : String, lowerStrip s ∉ ORDEM_MESES → lowerStrip s ∉ MESES_ABREV.map Prod.fst →
      normMes s = none) ∧
    (∀ (t : Table), ∀ r ∈ processar_dados t, r.mes ∈ ORDEM_MESES) := by
  refine ⟨?_, ?_, ?_, ?_⟩
  · intro m hm s hs
    simp only [ORDEM_MESES, List.mem_cons, List.not_mem_nil, or_false] at hm
    rcases hm with rfl | rfl | rfl | rfl | rfl | rfl | rfl | rfl | rfl | rfl | rfl | rfl <;>
      (simp only [normMes, hs]; decide)
  · intro p hp s hs
    simp only [MESES_ABREV, List.mem_cons, List.not_mem_nil, or_false] at hp
    rcases hp with rfl | rfl | rfl | rfl | rfl | rfl | rfl | rfl | rfl | rfl | rfl | rfl <;>
      (simp only [normMes, hs]; decide)
  · intro s h1 h2
    have hl : List.lookup (lowerStrip s) MESES_ABREV = none :=
      lookup_eq_none_of_not_mem_keys h2
    simp only [normMes, hl, Option.getD_none]
    exact if_neg h1
  · intro t r hr
    obtain ⟨iAno, iMes, row, _, _, _, hlin⟩ := processar_dados_mem hr
    have h2 := (linhaRec_inv hlin).2.1
    rcases hx : getCell row iMes with _ | x <;> rw [hx] at h2
    · exact Option.noConfusion h2
    · exact normMes_mem h2

theorem c9_mes_canonico_witness :
    normMes " JAN " = some "janeiro" ∧
    normMes "Dezembro" = some "dezembro" ∧
    normMes "xyz" = none ∧
    (⟨2025, "janeiro", "desconhecido", "desconhecido", "desconhecido", "desconhecido",
      some "desconhecido"⟩ : Rec).mes ∈ ORDEM_MESES :=
  ⟨c9_mes_canonico.2.1 ("jan", "janeiro") (by decide) " JAN " (by decide),
   c9_mes_canonico.1 "dezembro" (by decide) "Dezembro" (by decide),
   c9_mes_canonico.2.2.1 "xyz" (by decide) (by decide),
   c9_mes_canonico.2.2.2 ⟨["ano", "mes"], [[some "2025", some "jan"]]⟩ _ (by decide)⟩

/-- C10: normalization is a total Lean function into record sets, and when
the (normalized) header lacks the mandatory ano or mes column the result is
the empty record set: the KeyError of the column access is caught by the
except arm of source lines 63-65, which reports the error and returns an
empty DataFrame instead of raising. -/
theorem c10_processar_total (t : Table)
    (h : "ano" ∉ normHeader t ∨ "mes" ∉ normHeader t) :
    processar_dados t = [] := by
  rcases h with h | h
  · exact processar_dados_eq_nil_left (findIdx_eq_none_of_not_mem h)
  · exact processar_dados_eq_nil_right (findIdx_eq_none_of_not_mem h)

theorem c10_processar_total_witness :
    processar_dados ⟨["mes", "segmento"], [[some "janeiro", some "A"]]⟩ = [] :=
  c10_processar_total ⟨["mes", "segmento"], [[some "janeiro", some "A"]]⟩
    (Or.inl (by decide))

end BiAnalitico
